/-
Verification of the vehicle-identifier and banner/QR artifact pipeline of the
sita-backend repository, as a shallow embedding in Lean 4.

The embedding follows `app_veiculos/models.py`, `app_veiculos/views.py`,
`app_veiculos/signals.py` and `utils/app_veiculos/qr_code.py`.  Database
tables are lists of records, the filesystem is an explicit structure of file
and directory paths, randomness and I/O failures are explicit parameters.
-/
import Mathlib

namespace Sita

/-! ## Identifier generation (`models.gerar_identificador_unico`) -/

/-- Model of Python `s.replace(c, '')` for a single character `c`:
removes every occurrence of `c` from `s`. -/
def removeChar (s : String) (c : Char) : String :=
  String.mk (s.toList.filter (fun x => x ≠ c))

/-- Python `string.ascii_uppercase`. -/
def ascii_uppercase : String := "ABCDEFGHIJKLMNOPQRSTUVWXYZ"

/-- Python `string.digits`. -/
def digits : String := "0123456789"

/-- The reduced alphabet computed in `gerar_identificador_unico`:
uppercase letters and digits with `'O'`, `'0'`, `'I'`, `'L'`, `'1'` removed. -/
def caracteres : String :=
  removeChar (removeChar (removeChar (removeChar
    (removeChar (ascii_uppercase ++ digits) 'O') '0') 'I') 'L') '1'

/-- `gerar_identificador_unico`.  `random.choices(caracteres, k=8)` is modelled
by a random source `r : Nat → Nat`; position `i` receives the character of
`caracteres` at index `r i % caracteres.length`. -/
def gerar_identificador_unico (r : Nat → Nat) : String :=
  String.mk ((List.range 8).map
    (fun i => caracteres.toList.getD (r i % caracteres.toList.length) 'A'))

/-! ## Vehicle data model (`models.VeiculoBase` and its three concrete types) -/

/-- The three concrete vehicle model classes (Django content types). -/
inductive ContentType
  | TaxiVeiculo
  | MotoTaxiVeiculo
  | TransporteMunicipalVeiculo
  deriving DecidableEq

/-- Python `veiculo.__class__.__name__` for a vehicle of the given type. -/
def ContentType.className : ContentType → String
  | .TaxiVeiculo => "TaxiVeiculo"
  | .MotoTaxiVeiculo => "MotoTaxiVeiculo"
  | .TransporteMunicipalVeiculo => "TransporteMunicipalVeiculo"

/-- A vehicle row: the fields of `VeiculoBase` the banner pipeline reads.
`id` is the autoincrement primary key, `usuario_id` the owner key. -/
structure Veiculo where
  id : Nat
  identificador_unico_veiculo : String
  placa : String
  usuario_id : Nat
  deriving DecidableEq

/-- The vehicle database: one table per concrete type
(multi-table inheritance, no shared primary-key space). -/
structure VeiculoDB where
  taxis : List Veiculo
  mototaxis : List Veiculo
  transportes : List Veiculo
  deriving DecidableEq

/-- The table holding rows of the given concrete type. -/
def VeiculoDB.table (db : VeiculoDB) : ContentType → List Veiculo
  | .TaxiVeiculo => db.taxis
  | .MotoTaxiVeiculo => db.mototaxis
  | .TransporteMunicipalVeiculo => db.transportes

/-- `model_class.objects.get(identificador_unico_veiculo=ident)` with the
`DoesNotExist` case mapped to `none`.  The column is unique per table, so the
first match is the match. -/
def getByIdentificador (tbl : List Veiculo) (ident : String) : Option Veiculo :=
  tbl.find? (fun v => v.identificador_unico_veiculo == ident)

/-- `model_class.objects.get(pk=oid)` with `DoesNotExist` mapped to `none`. -/
def getById (tbl : List Veiculo) (oid : Nat) : Option Veiculo :=
  tbl.find? (fun v => v.id == oid)

/-- Primary keys are unique within a table. -/
def distinctIds (tbl : List Veiculo) : Prop :=
  (tbl.map Veiculo.id).Nodup

/-- `identificador_unico_veiculo` is unique within a table
(`unique=True` on the column). -/
def distinctIdents (tbl : List Veiculo) : Prop :=
  (tbl.map Veiculo.identificador_unico_veiculo).Nodup

/-! ## Banner records (`models.BannerIdentificacao`) -/

/-- A `BannerIdentificacao` row.  `object_id` is nullable
(`null=True, blank=True`); `content_type` is a non-nullable foreign key.
`arquivo_banner` is the stored file path (`none` when no file is attached). -/
structure BannerIdentificacao where
  content_type : ContentType
  object_id : Option Nat
  identificador_unico_veiculo : String
  arquivo_banner : Option String
  qr_url : String
  ativo : Bool
  deriving DecidableEq

/-- Python truthiness of the `object_id` field:
`None` and `0` are falsy, any other integer is truthy. -/
def objectIdTruthy : Option Nat → Bool
  | none => false
  | some n => n != 0

/-- Python truthiness of a string field: the empty string is falsy. -/
def strTruthy (s : String) : Bool := s != ""

/-- The `veiculo_por_identificador` property: `none` when the identifier is
falsy, otherwise a lookup by identifier in the content type's table.
(The `not self.content_type` guard of the source is vacuous here because the
column is non-nullable.) -/
def veiculoPorIdentificador (db : VeiculoDB) (b : BannerIdentificacao) :
    Option Veiculo :=
  if strTruthy b.identificador_unico_veiculo then
    getByIdentificador (db.table b.content_type) b.identificador_unico_veiculo
  else
    none

/-- The `veiculo` GenericForeignKey: resolves `(content_type, object_id)`,
`none` when `object_id` is null or the row is gone. -/
def veiculoGFK (db : VeiculoDB) (b : BannerIdentificacao) : Option Veiculo :=
  match b.object_id with
  | none => none
  | some oid => getById (db.table b.content_type) oid

/-- `BannerIdentificacao.get_veiculo`: first the lookup by unique identifier,
then the legacy GenericForeignKey as fallback. -/
def getVeiculo (db : VeiculoDB) (b : BannerIdentificacao) : Option Veiculo :=
  match veiculoPorIdentificador db b with
  | some v => some v
  | none => veiculoGFK db b

/-- `BannerIdentificacao.save`: before persisting, backfill `object_id` from
the identifier, or the identifier from `object_id`, whichever is missing. -/
def bannerSave (db : VeiculoDB) (b : BannerIdentificacao) :
    BannerIdentificacao :=
  if strTruthy b.identificador_unico_veiculo ∧ ¬ objectIdTruthy b.object_id then
    match veiculoPorIdentificador db b with
    | some v => { b with object_id := some v.id }
    | none => b
  else if objectIdTruthy b.object_id ∧
      ¬ strTruthy b.identificador_unico_veiculo then
    match veiculoGFK db b with
    | some v =>
        { b with identificador_unico_veiculo := v.identificador_unico_veiculo }
    | none => b
  else b

/-! ## Artifact path derivation (`models.upload_banner_to`,
`BannerIdentificacao.gerar_banner`) -/

/-- The `tipo_veiculo_map` dictionary of `upload_banner_to`, with
`dict.get(key, 'outro')` semantics: unrecognized class names map to
`"outro"`. -/
def tipoVeiculoMap (className : String) : String :=
  if className = "TaxiVeiculo" then "taxi"
  else if className = "MotoTaxiVeiculo" then "mototaxi"
  else if className = "TransporteMunicipalVeiculo" then "transporte_municipal"
  else "outro"

/-- `upload_banner_to(instance, filename)`: the per-vehicle typed directory
when the vehicle resolves, the flat legacy path otherwise. -/
def upload_banner_to (db : VeiculoDB) (b : BannerIdentificacao)
    (filename : String) : String :=
  match getVeiculo db b with
  | none => "banners_identificacao/" ++ filename
  | some v =>
    let tipo_dir := tipoVeiculoMap b.content_type.className
    "banners_identificacao/veiculo/" ++ tipo_dir ++ "/" ++
      v.identificador_unico_veiculo ++ "/" ++ filename

/-- The filename `gerar_banner` hands to `arquivo_banner.save`:
`banner_{identificador}_{placa}.png`. -/
def bannerFilename (v : Veiculo) : String :=
  "banner_" ++ v.identificador_unico_veiculo ++ "_" ++ v.placa ++ ".png"

/-! ## Banner creation (`views.BannerIdentificacaoViewSet.create`) -/

/-- The fresh row built by `BannerIdentificacao.objects.create(content_type=…,
object_id=veiculo.id)`: field defaults give `ativo=True` and empty
identifier/file/url. -/
def newBanner (ct : ContentType) (vid : Nat) : BannerIdentificacao :=
  { content_type := ct
    object_id := some vid
    identificador_unico_veiculo := ""
    arquivo_banner := none
    qr_url := ""
    ativo := true }

/-- The `filter(content_type=…, object_id=…, ativo=True).update(ativo=False)`
step of `create`: deactivate every active banner of the vehicle. -/
def deactivateActive (banners : List BannerIdentificacao) (ct : ContentType)
    (vid : Nat) : List BannerIdentificacao :=
  banners.map (fun b =>
    if b.content_type = ct ∧ b.object_id = some vid ∧ b.ativo = true then
      { b with ativo := false }
    else b)

/-- The banners of vehicle `(ct, vid)` (legacy reference) that are active. -/
def activeBannersFor (banners : List BannerIdentificacao) (ct : ContentType)
    (vid : Nat) : Nat :=
  (banners.filter (fun b =>
    b.content_type == ct && b.object_id == some vid && b.ativo)).length


/-! ## Polymorphic vehicle resolution (`views.por_veiculo` /
`InfoVeiculoPublicoView.retrieve` search loop) -/

/-- The search loop `for model_class in [TaxiVeiculo, MotoTaxiVeiculo,
TransporteMunicipalVeiculo]`: the first table holding the identifier wins. -/
def findVeiculoByIdentificador (db : VeiculoDB) (ident : String) :
    Option (Veiculo × ContentType) :=
  match getByIdentificador db.taxis ident with
  | some v => some (v, .TaxiVeiculo)
  | none =>
    match getByIdentificador db.mototaxis ident with
    | some v => some (v, .MotoTaxiVeiculo)
    | none =>
      match getByIdentificador db.transportes ident with
      | some v => some (v, .TransporteMunicipalVeiculo)
      | none => none

/-- Creating a vehicle of type `ct`: insert the row into that type's table. -/
def insertVeiculo (db : VeiculoDB) (ct : ContentType) (v : Veiculo) :
    VeiculoDB :=
  match ct with
  | .TaxiVeiculo => { db with taxis := db.taxis ++ [v] }
  | .MotoTaxiVeiculo => { db with mototaxis := db.mototaxis ++ [v] }
  | .TransporteMunicipalVeiculo =>
      { db with transportes := db.transportes ++ [v] }

/-- No table contains a vehicle with the given identifier. -/
def identFresh (db : VeiculoDB) (ident : String) : Prop :=
  getByIdentificador db.taxis ident = none ∧
  getByIdentificador db.mototaxis ident = none ∧
  getByIdentificador db.transportes ident = none

/-! ## Banner creation endpoint (`views.BannerIdentificacaoViewSet.create`,
`serializers.BannerCreateSerializer`) -/

/-- The `existing_banner` probe of `BannerCreateSerializer`:
`BannerIdentificacao.objects.filter(content_type=…, object_id=…,
ativo=True).first()` is non-empty. -/
def hasActiveBanner (banners : List BannerIdentificacao) (ct : ContentType)
    (vid : Nat) : Bool :=
  banners.any (fun b =>
    b.content_type == ct && b.object_id == some vid && b.ativo)

/-- `BannerCreateSerializer.validate_identificador_veiculo`: resolve the
vehicle across the three types in the fixed order, reject an unknown
identifier, reject a requester who is neither staff nor the owner, and
reject a vehicle that already has an active banner. -/
def validateIdentificadorVeiculo (db : VeiculoDB)
    (banners : List BannerIdentificacao) (isStaff : Bool) (userId : Nat)
    (ident : String) : Except String (Veiculo × ContentType) :=
  match findVeiculoByIdentificador db ident with
  | none => .error "Veículo não encontrado."
  | some (v, ct) =>
    if ¬ isStaff ∧ v.usuario_id ≠ userId then
      .error "Você não tem permissão para criar banner deste veículo."
    else if hasActiveBanner banners ct v.id then
      .error "Veículo já possui banner ativo."
    else
      .ok (v, ct)

/-- Outcome of the create endpoint on the banner table: the new table on
HTTP 201, the serializer message on HTTP 400, or the `IntegrityError` the
storage raises when the insert violates the `unique_together`
`(content_type, identificador_unico_veiculo)` constraint (surfaced as
HTTP 500 by the endpoint's `except` block). -/
inductive CreateResult
  | created (banners : List BannerIdentificacao)
  | validationError (msg : String)
  | integrityError
  deriving DecidableEq

/-- `BannerIdentificacaoViewSet.create`: run the serializer validation
(`is_valid(raise_exception=True)`), then deactivate the vehicle's active
banners, then insert the new row — whose `save`, run by `gerar_banner`,
backfills the identifier, and whose insert the storage rejects when another
row already carries the same `(content_type, identificador_unico_veiculo)`
pair. -/
def createBanner (db : VeiculoDB) (banners : List BannerIdentificacao)
    (isStaff : Bool) (userId : Nat) (ident : String) : CreateResult :=
  match validateIdentificadorVeiculo db banners isStaff userId ident with
  | .error msg => .validationError msg
  | .ok (v, ct) =>
    let deactivated := deactivateActive banners ct v.id
    let nb := bannerSave db (newBanner ct v.id)
    if deactivated.any (fun b => b.content_type == ct &&
        b.identificador_unico_veiculo == nb.identificador_unico_veiculo) then
      .integrityError
    else
      .created (deactivated ++ [nb])

/-! ## Filesystem model, for the cleanup logic of
`views.regenerar` and `signals.remove_banner_files_on_delete` -/

/-- A snapshot of the relevant part of the disk: the set of existing file
paths and the set of existing directory paths. -/
structure FS where
  files : List String
  dirs : List String
  deriving DecidableEq

/-- Python `os.path.dirname`: everything before the last `'/'`
(empty when the path has no `'/'`). -/
def dirname (p : String) : String :=
  match (p.toList.reverse).dropWhile (fun c => c ≠ '/') with
  | [] => ""
  | _ :: rest => String.mk rest.reverse

/-- `os.path.exists` for a file path. -/
def FS.fileExists (fs : FS) (p : String) : Bool := fs.files.contains p

/-- `os.path.exists` for a directory path. -/
def FS.dirExists (fs : FS) (d : String) : Bool := fs.dirs.contains d

/-- `not os.listdir(d)`: the directory holds no file and no subdirectory. -/
def FS.dirEmpty (fs : FS) (d : String) : Bool :=
  fs.files.all (fun f => dirname f ≠ d) && fs.dirs.all (fun s => dirname s ≠ d)

/-- `os.remove`. -/
def FS.removeFile (fs : FS) (p : String) : FS :=
  { fs with files := fs.files.filter (fun f => f ≠ p) }

/-- `os.rmdir`. -/
def FS.removeDir (fs : FS) (d : String) : FS :=
  { fs with dirs := fs.dirs.filter (fun s => s ≠ d) }

/-- Writing a file (Django storage `save`): the file appears on disk and so
does its parent directory (storage creates missing directories). -/
def FS.writeFile (fs : FS) (p : String) : FS :=
  { files := if fs.files.contains p then fs.files else p :: fs.files
    dirs := if fs.dirs.contains (dirname p) then fs.dirs
            else dirname p :: fs.dirs }

/-! ## Banner regeneration (`views.BannerIdentificacaoViewSet.regenerar`) -/

/-- Outcome of a `regenerar` call: the disk afterwards and whether the
endpoint answered success (HTTP 200). -/
structure RegenResult where
  fs : FS
  success : Bool
  deriving DecidableEq

/-- `regenerar`, on the success path of `gerar_banner` (which writes
`newFile`).  `oldFile` is the banner's file before the call (`none` when no
file is attached).  `removeRaises` injects an `OSError`/`ValueError` from
`os.remove`, `rmdirRaises` one from `os.rmdir`; the source catches both. -/
def regenerar (fs : FS) (oldFile : Option String) (newFile : String)
    (removeRaises : Bool) (rmdirRaises : Bool) : RegenResult :=
  let arquivo_antigo_path := oldFile
  let fs1 := fs.writeFile newFile
  let novo_arquivo_path := newFile
  let fs2 :=
    match arquivo_antigo_path with
    | none => fs1
    | some old =>
      if fs1.fileExists old ∧ old ≠ novo_arquivo_path then
        if removeRaises then fs1
        else
          let fsr := fs1.removeFile old
          let diretorio := dirname old
          if fsr.dirExists diretorio ∧ fsr.dirEmpty diretorio then
            if rmdirRaises then fsr else fsr.removeDir diretorio
          else fsr
      else fs1
  { fs := fs2, success := true }

/-! ## Deletion cleanup (`signals.remove_banner_files_on_delete`) -/

/-- The exception classes the cleanup code can meet.  `fileNotFoundError` and
`permissionError` are both `OSError` subclasses in Python; the signal
handler's outer `except` clause names only `(ValueError,
FileNotFoundError)`. -/
inductive OsExc
  | valueError
  | fileNotFoundError
  | permissionError
  | otherOsError
  deriving DecidableEq

/-- The pre-delete signal handler.  `arquivo` is the banner's attached file
path (`none` when no file).  `pathRaises` injects the `ValueError` that
`.path` raises when no file is associated; `removeExc` injects an exception
from `os.remove`; `rmdirRaises` injects an `OSError` from `os.rmdir` (caught
by the inner `except OSError`).  The result is the disk after the handler, or
the exception it lets escape. -/
def remove_banner_files_on_delete (fs : FS) (arquivo : Option String)
    (pathRaises : Bool) (removeExc : Option OsExc) (rmdirRaises : Bool) :
    Except OsExc FS :=
  match arquivo with
  | none => .ok fs
  | some name =>
    if pathRaises then .ok fs
    else
      let arquivo_path := name
      if fs.fileExists arquivo_path then
        let diretorio := dirname arquivo_path
        match removeExc with
        | some e =>
          match e with
          | .valueError => .ok fs
          | .fileNotFoundError => .ok fs
          | .permissionError => .error e
          | .otherOsError => .error e
        | none =>
          let fs1 := fs.removeFile arquivo_path
          if fs1.dirExists diretorio ∧ fs1.dirEmpty diretorio then
            if rmdirRaises then .ok fs1 else .ok (fs1.removeDir diretorio)
          else .ok fs1
      else .ok fs

/-! ## Banner image builder (`utils/app_veiculos/qr_code.criar_banner_com_qr`) -/

/-- Which font ended up in use: the DejaVuSans TrueType font, or the PIL
built-in default after a font-load failure. -/
inductive FontUsed
  | truetype
  | defaultFont
  deriving DecidableEq

/-- Exceptions of the builder: the `FileNotFoundError` raised when the base
template is absent, or any other exception met during QR generation,
compositing or encoding (carried as its message). -/
inductive BannerExc
  | fileNotFound (msg : String)
  | otherError (msg : String)
  deriving DecidableEq

/-- The environment the builder runs in: whether the template asset exists,
whether the TrueType font loads, and an injected compositing exception. -/
structure BannerEnv where
  templateExists : Bool
  fontLoads : Bool
  compositeError : Option String
  deriving DecidableEq

/-- The produced PNG stream, abstracted to the facts the spec talks about. -/
structure BannerImage where
  fontUsed : FontUsed
  isPng : Bool
  streamAtZero : Bool
  deriving DecidableEq

/-- The message of the `logger.error` call in the `except` block. -/
def bannerErrorLog (identificador_veiculo msg : String) : String :=
  "Erro ao gerar banner para veículo " ++ identificador_veiculo ++ ": " ++ msg

/-- `criar_banner_com_qr`.  Returns the result (or the exception the function
re-raises) together with the list of messages logged at error level.  The
missing-template `FileNotFoundError` and any compositing exception are both
routed through the outer `except Exception` block, which logs a message
carrying the vehicle identifier and re-raises the original exception. -/
def criar_banner_com_qr (env : BannerEnv) (identificador_veiculo : String)
    (placa : String) (usuario_id : Nat) (qr_url : String) :
    Except BannerExc BannerImage × List String :=
  if ¬ env.templateExists then
    let e := BannerExc.fileNotFound
      "Banner base não encontrado em settings.BASE_DIR/utils/images/banner_identificacao.png"
    (.error e,
      [bannerErrorLog identificador_veiculo
        "Banner base não encontrado em settings.BASE_DIR/utils/images/banner_identificacao.png"])
  else
    let font := if env.fontLoads then FontUsed.truetype else FontUsed.defaultFont
    match env.compositeError with
    | some msg =>
        (.error (BannerExc.otherError msg),
          [bannerErrorLog identificador_veiculo msg])
    | none =>
        (.ok { fontUsed := font, isPng := true, streamAtZero := true }, [])

/-! ## Sample data for witnesses -/

/-- A concrete taxi row (the end-to-end example of the spec). -/
def sampleVeiculo : Veiculo :=
  { id := 1
    identificador_unico_veiculo := "AB3XY789"
    placa := "ABC1234"
    usuario_id := 7 }

/-- A database holding just the sample taxi. -/
def sampleDB : VeiculoDB :=
  { taxis := [sampleVeiculo], mototaxis := [], transportes := [] }

/-- The empty database. -/
def emptyDB : VeiculoDB := { taxis := [], mototaxis := [], transportes := [] }

/-- A banner row carrying only the stable identifier. -/
def sampleBannerIdentOnly : BannerIdentificacao :=
  { content_type := .TaxiVeiculo
    object_id := none
    identificador_unico_veiculo := "AB3XY789"
    arquivo_banner := none
    qr_url := ""
    ativo := true }

/-- A banner row carrying only the legacy numeric id. -/
def sampleBannerIdOnly : BannerIdentificacao :=
  { content_type := .TaxiVeiculo
    object_id := some 1
    identificador_unico_veiculo := ""
    arquivo_banner := none
    qr_url := ""
    ativo := true }

/-- A banner row with neither reference populated. -/
def emptyBanner : BannerIdentificacao :=
  { content_type := .TaxiVeiculo
    object_id := none
    identificador_unico_veiculo := ""
    arquivo_banner := none
    qr_url := ""
    ativo := true }

/-! ## Helper lemmas -/

lemma getD_mod_mem (l : List Char) (h : l ≠ []) (n : Nat) (d : Char) :
    l.getD (n % l.length) d ∈ l := by
  have hlen : 0 < l.length := List.length_pos.mpr h
  have h2 : n % l.length < l.length := Nat.mod_lt _ hlen
  rw [List.getD_eq_getElem l d h2]
  exact List.getElem_mem h2

/-- `find?` with an equality test on a key finds exactly the member carrying
the key when keys are duplicate-free (the semantics of Django `.get` on a
unique column). -/
lemma find?_key_unique {α κ : Type} [DecidableEq κ] (key : α → κ) (k : κ) :
    ∀ (l : List α) (v : α), v ∈ l → key v = k → (l.map key).Nodup →
      l.find? (fun x => key x == k) = some v := by
  intro l
  induction l with
  | nil => intro v hv; cases hv
  | cons a t ih =>
    intro v hv hk hnd
    rw [List.map_cons] at hnd
    have hnd1 : key a ∉ List.map key t := (List.nodup_cons.1 hnd).1
    have hnd2 : (List.map key t).Nodup := (List.nodup_cons.1 hnd).2
    rcases List.mem_cons.1 hv with h | h
    · subst h
      simp [List.find?_cons, hk]
    · have hak : key a ≠ k := by
        intro hek
        exact hnd1 (by
          rw [hek, ← hk]
          exact List.mem_map_of_mem key h)
      have hfalse : (key a == k) = false := beq_eq_false_iff_ne.2 hak
      rw [List.find?_cons]
      simp only [hfalse]
      exact ih v h hk hnd2

/-- A successful `getByIdentificador` lookup returns a table member carrying
the looked-up identifier. -/
lemma getByIdentificador_some {tbl : List Veiculo} {ident : String}
    {v : Veiculo} (h : getByIdentificador tbl ident = some v) :
    v ∈ tbl ∧ v.identificador_unico_veiculo = ident := by
  refine ⟨List.mem_of_find?_eq_some h, ?_⟩
  have := List.find?_some h
  simpa using this

/-- A successful `getById` lookup returns a table member carrying the
looked-up primary key. -/
lemma getById_some {tbl : List Veiculo} {oid : Nat} {v : Veiculo}
    (h : getById tbl oid = some v) : v ∈ tbl ∧ v.id = oid := by
  refine ⟨List.mem_of_find?_eq_some h, ?_⟩
  have := List.find?_some h
  simpa using this

/-- `getById` on a table with duplicate-free primary keys finds a member by
its own id. -/
lemma getById_of_mem {tbl : List Veiculo} {v : Veiculo} (hm : v ∈ tbl)
    (hnd : distinctIds tbl) : getById tbl v.id = some v :=
  find?_key_unique Veiculo.id v.id tbl v hm rfl hnd

/-- `getByIdentificador` on a table with duplicate-free identifiers finds a
member by its own identifier. -/
lemma getByIdentificador_of_mem {tbl : List Veiculo} {v : Veiculo}
    (hm : v ∈ tbl) (hnd : distinctIdents tbl) :
    getByIdentificador tbl v.identificador_unico_veiculo = some v :=
  find?_key_unique Veiculo.identificador_unico_veiculo
    v.identificador_unico_veiculo tbl v hm rfl hnd

/-! ## C2 — identifier generator shape -/

/-- C2: every call of the vehicle-identifier generator yields a string of
length exactly 8 whose characters all belong to the 31-symbol alphabet
`ABCDEFGHJKMNPQRSTUVWXYZ23456789` (uppercase letters and digits without
`O`, `0`, `I`, `L`, `1`). -/
theorem gerar_identificador_unico_shape (r : Nat → Nat) :
    caracteres = "ABCDEFGHJKMNPQRSTUVWXYZ23456789" ∧
    caracteres.length = 31 ∧
    (gerar_identificador_unico r).length = 8 ∧
    ∀ c ∈ (gerar_identificador_unico r).toList, c ∈ caracteres.toList := by
  refine ⟨by decide, by decide, ?_, ?_⟩
  · rfl
  · intro c hc
    simp only [gerar_identificador_unico, String.toList] at hc
    obtain ⟨i, -, rfl⟩ := List.mem_map.1 hc
    exact getD_mod_mem caracteres.toList (by decide) (r i) 'A'

/-! ## C4 — `get_veiculo` resolution priority -/

/-- C4: `get_veiculo` first resolves through the stable unique identifier;
only when that lookup yields nothing does it fall back to the legacy
`(content_type, object_id)` reference, and it returns `none` when both
lookups fail. -/
theorem getVeiculo_resolution_priority (db : VeiculoDB)
    (b : BannerIdentificacao) :
    (∀ v, veiculoPorIdentificador db b = some v → getVeiculo db b = some v) ∧
    (veiculoPorIdentificador db b = none →
      getVeiculo db b = veiculoGFK db b) ∧
    (veiculoPorIdentificador db b = none → veiculoGFK db b = none →
      getVeiculo db b = none) := by
  refine ⟨?_, ?_, ?_⟩
  · intro v h
    simp [getVeiculo, h]
  · intro h
    simp [getVeiculo, h]
  · intro h1 h2
    simp [getVeiculo, h1, h2]

/-- Witness for C4 at a concrete input: a banner with neither reference set
resolves to no vehicle. -/
theorem getVeiculo_resolution_priority_witness :
    getVeiculo emptyDB emptyBanner = none :=
  (getVeiculo_resolution_priority emptyDB emptyBanner).2.2
    (by decide) (by decide)

/-! ## C3 — `save()` dual-reference backfill -/

/-- C3: on `save()`, a banner carrying only the stable identifier gets its
legacy numeric id backfilled from the resolved vehicle, and a banner carrying
only the numeric id gets its identifier backfilled; afterwards both reference
schemes resolve to the same underlying vehicle.  Uniqueness of primary keys
and identifiers within the table (the storage constraints) is assumed. -/
theorem bannerSave_backfill (db : VeiculoDB) (b : BannerIdentificacao) :
    (∀ v, strTruthy b.identificador_unico_veiculo = true →
      objectIdTruthy b.object_id = false →
      veiculoPorIdentificador db b = some v →
      distinctIds (db.table b.content_type) →
      (bannerSave db b).object_id = some v.id ∧
      veiculoPorIdentificador db (bannerSave db b) = some v ∧
      veiculoGFK db (bannerSave db b) = some v) ∧
    (∀ v, objectIdTruthy b.object_id = true →
      strTruthy b.identificador_unico_veiculo = false →
      veiculoGFK db b = some v →
      distinctIdents (db.table b.content_type) →
      strTruthy v.identificador_unico_veiculo = true →
      (bannerSave db b).identificador_unico_veiculo =
        v.identificador_unico_veiculo ∧
      veiculoGFK db (bannerSave db b) = some v ∧
      veiculoPorIdentificador db (bannerSave db b) = some v) := by
  constructor
  · intro v hident hoid hres hnd
    have hsave : bannerSave db b = { b with object_id := some v.id } := by
      unfold bannerSave
      rw [if_pos ⟨hident, by simp [hoid]⟩, hres]
    have hmem := getByIdentificador_some (by
      unfold veiculoPorIdentificador at hres
      rw [if_pos hident] at hres
      exact hres)
    refine ⟨by rw [hsave], ?_, ?_⟩
    · rw [hsave]
      unfold veiculoPorIdentificador at hres ⊢
      exact hres
    · rw [hsave]
      unfold veiculoGFK
      simp only
      exact getById_of_mem hmem.1 hnd
  · intro v hoid hident hres hnd hvident
    have hsave : bannerSave db b =
        { b with identificador_unico_veiculo :=
            v.identificador_unico_veiculo } := by
      unfold bannerSave
      rw [if_neg (by simp [hident]), if_pos ⟨hoid, by simp [hident]⟩, hres]
    obtain ⟨oid, hboid⟩ : ∃ oid, b.object_id = some oid := by
      cases hb : b.object_id with
      | none => rw [hb] at hoid; simp [objectIdTruthy] at hoid
      | some n => exact ⟨n, rfl⟩
    have hmem : v ∈ db.table b.content_type := by
      unfold veiculoGFK at hres
      rw [hboid] at hres
      exact (getById_some hres).1
    refine ⟨by rw [hsave], ?_, ?_⟩
    · rw [hsave]
      unfold veiculoGFK at hres ⊢
      exact hres
    · rw [hsave]
      unfold veiculoPorIdentificador
      simp only
      rw [if_pos hvident]
      exact getByIdentificador_of_mem hmem hnd

/-- Witness for C3 at concrete inputs: saving the identifier-only banner
backfills `object_id = 1`, and saving the id-only banner backfills the
identifier `AB3XY789`. -/
theorem bannerSave_backfill_witness :
    (bannerSave sampleDB sampleBannerIdentOnly).object_id = some 1 ∧
    (bannerSave sampleDB sampleBannerIdOnly).identificador_unico_veiculo =
      "AB3XY789" := by
  constructor
  · exact ((bannerSave_backfill sampleDB sampleBannerIdentOnly).1 sampleVeiculo
      (by decide) (by decide) (by decide) (by unfold distinctIds; decide)).1
  · exact ((bannerSave_backfill sampleDB sampleBannerIdOnly).2 sampleVeiculo
      (by decide) (by decide) (by decide)
      (by unfold distinctIdents; decide) (by decide)).1

/-! ## C1 — creation deactivates superseded banners -/

/-- `save` never touches `content_type` or `ativo`, and leaves `object_id`
unchanged when it is already populated at the value the row was created
with. -/
lemma bannerSave_newBanner_fields (db : VeiculoDB) (ct : ContentType)
    (vid : Nat) :
    (bannerSave db (newBanner ct vid)).content_type = ct ∧
    (bannerSave db (newBanner ct vid)).object_id = some vid ∧
    (bannerSave db (newBanner ct vid)).ativo = true := by
  unfold bannerSave newBanner
  simp only [strTruthy, objectIdTruthy]
  rw [if_neg (by simp)]
  by_cases h : vid = 0
  · rw [if_neg (by simp [h])]
    exact ⟨rfl, rfl, rfl⟩
  · rw [if_pos (by simp [h])]
    cases hgfk : veiculoGFK db
        { content_type := ct, object_id := some vid,
          identificador_unico_veiculo := "", arquivo_banner := none,
          qr_url := "", ativo := true } with
    | none => exact ⟨rfl, rfl, rfl⟩
    | some v => exact ⟨rfl, rfl, rfl⟩

/-- After the `update(ativo=False)` step, no banner of the vehicle is
active. -/
lemma deactivateActive_none_active (banners : List BannerIdentificacao)
    (ct : ContentType) (vid : Nat) :
    ∀ b' ∈ deactivateActive banners ct vid,
      (b'.content_type == ct && b'.object_id == some vid && b'.ativo)
        = false := by
  intro b' hb'
  obtain ⟨b, -, rfl⟩ := List.mem_map.1 hb'
  by_cases h : b.content_type = ct ∧ b.object_id = some vid ∧ b.ativo = true
  · rw [if_pos h]
    simp
  · rw [if_neg h]
    by_cases h1 : b.content_type = ct
    · by_cases h2 : b.object_id = some vid
      · have h3 : b.ativo = false := by
          cases hb : b.ativo with
          | false => rfl
          | true => exact absurd ⟨h1, h2, hb⟩ h
        simp [h3]
      · simp [h2]
    · simp [h1]

/-- Lists map to themselves under a conditional rewrite whose condition no
element satisfies. -/
lemma map_if_eq_self {α : Type} (p : α → Prop) [DecidablePred p] (f : α → α) :
    ∀ (l : List α), (∀ a ∈ l, ¬ p a) →
      l.map (fun a => if p a then f a else a) = l := by
  intro l
  induction l with
  | nil => intro h; rfl
  | cons a t ih =>
    intro h
    rw [List.map_cons, if_neg (h a (List.mem_cons_self a t)),
      ih (fun x hx => h x (List.mem_cons_of_mem a hx))]

/-- When the vehicle has no active banner, the `update(ativo=False)` pass
touches nothing. -/
lemma deactivateActive_noop {banners : List BannerIdentificacao}
    {ct : ContentType} {vid : Nat}
    (h : hasActiveBanner banners ct vid = false) :
    deactivateActive banners ct vid = banners := by
  have hall : ∀ b ∈ banners,
      ¬ (b.content_type = ct ∧ b.object_id = some vid ∧ b.ativo = true) := by
    intro b hb hc
    have hany : banners.any (fun b =>
        b.content_type == ct && b.object_id == some vid && b.ativo) = true :=
      List.any_eq_true.2 ⟨b, hb, by simp [hc.1, hc.2.1, hc.2.2]⟩
    unfold hasActiveBanner at h
    rw [h] at hany
    cases hany
  unfold deactivateActive
  exact map_if_eq_self _ _ banners hall

/-- When the vehicle has no active banner, the active filter over the table
is empty. -/
lemma hasActiveBanner_false_filter_nil {banners : List BannerIdentificacao}
    {ct : ContentType} {vid : Nat}
    (h : hasActiveBanner banners ct vid = false) :
    banners.filter (fun b =>
      b.content_type == ct && b.object_id == some vid && b.ativo) = [] := by
  rw [List.filter_eq_nil_iff]
  intro b hb hpred
  have hany : banners.any (fun b =>
      b.content_type == ct && b.object_id == some vid && b.ativo) = true :=
    List.any_eq_true.2 ⟨b, hb, hpred⟩
  unfold hasActiveBanner at h
  rw [h] at hany
  cases hany

/-- C1 counterexample: the claim fails on the code.  For a vehicle that
already has an active banner record, the create endpoint is stopped by
`BannerCreateSerializer.validate_identificador_veiculo` with
`Veículo já possui banner ativo.` (HTTP 400) before the deactivate-and-create
block ever runs: nothing is deactivated and no record is created. -/
theorem createBanner_rejects_active_vehicle :
    createBanner sampleDB [sampleBannerIdOnly] true 7 "AB3XY789" =
      .validationError "Veículo já possui banner ativo." := by
  decide

/-- C1 (amended): creating a banner for a vehicle that already has an active
banner record is rejected by serializer validation with
`Veículo já possui banner ativo.`, deactivating and creating nothing (as are
an unknown identifier and a requester without permission); the
deactivate-then-create block runs only after validation has established that
no active banner exists, so its deactivation pass finds nothing to
deactivate, and a successful create appends exactly one new row, after which
exactly one (hence at most one) active banner record exists for the vehicle;
an insert whose `(content_type, identificador_unico_veiculo)` pair collides
with a remaining row fails with an integrity error instead of creating. -/
theorem createBanner_validated_lifecycle (db : VeiculoDB)
    (banners : List BannerIdentificacao) (isStaff : Bool) (userId : Nat)
    (ident : String) :
    (findVeiculoByIdentificador db ident = none →
      createBanner db banners isStaff userId ident =
        .validationError "Veículo não encontrado.") ∧
    (∀ v ct, findVeiculoByIdentificador db ident = some (v, ct) →
      isStaff = false → v.usuario_id ≠ userId →
      createBanner db banners isStaff userId ident =
        .validationError
          "Você não tem permissão para criar banner deste veículo.") ∧
    (∀ v ct, findVeiculoByIdentificador db ident = some (v, ct) →
      ¬ (¬ isStaff = true ∧ v.usuario_id ≠ userId) →
      hasActiveBanner banners ct v.id = true →
      createBanner db banners isStaff userId ident =
        .validationError "Veículo já possui banner ativo.") ∧
    (∀ v ct bs, findVeiculoByIdentificador db ident = some (v, ct) →
      createBanner db banners isStaff userId ident = .created bs →
      hasActiveBanner banners ct v.id = false ∧
      deactivateActive banners ct v.id = banners ∧
      bs = banners ++ [bannerSave db (newBanner ct v.id)] ∧
      activeBannersFor bs ct v.id = 1 ∧
      bs.length = banners.length + 1) ∧
    (∀ v ct, findVeiculoByIdentificador db ident = some (v, ct) →
      ¬ (¬ isStaff = true ∧ v.usuario_id ≠ userId) →
      hasActiveBanner banners ct v.id = false →
      (deactivateActive banners ct v.id).any (fun b =>
        b.content_type == ct && b.identificador_unico_veiculo ==
          (bannerSave db (newBanner ct v.id)).identificador_unico_veiculo)
        = true →
      createBanner db banners isStaff userId ident = .integrityError) := by
  refine ⟨?_, ?_, ?_, ?_, ?_⟩
  · intro h
    unfold createBanner validateIdentificadorVeiculo
    rw [h]
  · intro v ct h hstaff hneq
    subst hstaff
    unfold createBanner validateIdentificadorVeiculo
    rw [h]
    simp only
    rw [if_pos ⟨by simp, hneq⟩]
  · intro v ct h hperm hactive
    unfold createBanner validateIdentificadorVeiculo
    rw [h]
    simp only
    rw [if_neg hperm, if_pos hactive]
  · intro v ct bs h hcreated
    unfold createBanner validateIdentificadorVeiculo at hcreated
    rw [h] at hcreated
    simp only at hcreated
    by_cases hperm : ¬ isStaff = true ∧ v.usuario_id ≠ userId
    · rw [if_pos hperm] at hcreated
      simp at hcreated
    · rw [if_neg hperm] at hcreated
      cases hactive : hasActiveBanner banners ct v.id with
      | true =>
        rw [if_pos hactive] at hcreated
        simp at hcreated
      | false =>
        rw [if_neg (by simp [hactive])] at hcreated
        simp only at hcreated
        by_cases hclash : (deactivateActive banners ct v.id).any (fun b =>
            b.content_type == ct && b.identificador_unico_veiculo ==
              (bannerSave db (newBanner ct v.id)).identificador_unico_veiculo)
            = true
        · rw [if_pos hclash] at hcreated
          simp at hcreated
        · rw [if_neg hclash] at hcreated
          have hnoop := deactivateActive_noop hactive
          rw [hnoop] at hcreated
          have hbs : banners ++ [bannerSave db (newBanner ct v.id)] = bs := by
            injection hcreated
          refine ⟨rfl, hnoop, hbs.symm, ?_, ?_⟩
          · rw [← hbs]
            unfold activeBannersFor
            rw [List.filter_append, hasActiveBanner_false_filter_nil hactive]
            have hf := bannerSave_newBanner_fields db ct v.id
            have h2 : ([bannerSave db (newBanner ct v.id)]).filter
                (fun b => b.content_type == ct && b.object_id == some v.id &&
                  b.ativo) = [bannerSave db (newBanner ct v.id)] := by
              simp [List.filter, hf.1, hf.2.1, hf.2.2]
            rw [h2]
            rfl
          · rw [← hbs]
            simp
  · intro v ct h hperm hactive hclash
    unfold createBanner validateIdentificadorVeiculo
    rw [h]
    simp only
    rw [if_neg hperm, if_neg (by simp [hactive])]
    simp only
    rw [if_pos hclash]

/-- Witness for the amended C1 at a concrete input: creating a banner for the
sample taxi over an empty banner table succeeds, appends the single backfilled
row, and leaves exactly one active banner for the vehicle. -/
theorem createBanner_validated_lifecycle_witness :
    createBanner sampleDB [] true 7 "AB3XY789" =
      .created [bannerSave sampleDB (newBanner .TaxiVeiculo 1)] ∧
    activeBannersFor [bannerSave sampleDB (newBanner .TaxiVeiculo 1)]
      .TaxiVeiculo 1 = 1 ∧
    hasActiveBanner [] .TaxiVeiculo 1 = false := by
  have hcreated : createBanner sampleDB [] true 7 "AB3XY789" =
      .created [bannerSave sampleDB (newBanner .TaxiVeiculo 1)] := by decide
  have h := (createBanner_validated_lifecycle sampleDB [] true 7
    "AB3XY789").2.2.2.1 sampleVeiculo .TaxiVeiculo
    [bannerSave sampleDB (newBanner .TaxiVeiculo 1)] (by decide) hcreated
  exact ⟨hcreated, h.2.2.2.1, h.1⟩

/-! ## C5 — fixed-order polymorphic resolution and round-trip -/

/-- Appending a row to a table that misses the identifier makes the lookup
find the new row exactly when it carries the identifier. -/
lemma getByIdentificador_append (tbl : List Veiculo) (v : Veiculo)
    (ident : String) (h : getByIdentificador tbl ident = none) :
    getByIdentificador (tbl ++ [v]) ident =
      if v.identificador_unico_veiculo = ident then some v else none := by
  unfold getByIdentificador at h ⊢
  rw [List.find?_append, h]
  by_cases hv : v.identificador_unico_veiculo = ident
  · simp [List.find?, hv]
  · have hb : (v.identificador_unico_veiculo == ident) = false :=
      beq_eq_false_iff_ne.2 hv
    simp [List.find?, hb, hv]

/-- C5: the resolver searches Taxi, then MotoTaxi, then MunicipalTransport,
returning the first record carrying the identifier, `none` when no table
carries it; consequently inserting a vehicle with a fresh identifier and
resolving by that identifier returns exactly that vehicle with its type. -/
theorem findVeiculoByIdentificador_order_roundtrip (db : VeiculoDB)
    (ident : String) :
    (∀ v, getByIdentificador db.taxis ident = some v →
      findVeiculoByIdentificador db ident = some (v, .TaxiVeiculo)) ∧
    (∀ v, getByIdentificador db.taxis ident = none →
      getByIdentificador db.mototaxis ident = some v →
      findVeiculoByIdentificador db ident = some (v, .MotoTaxiVeiculo)) ∧
    (∀ v, getByIdentificador db.taxis ident = none →
      getByIdentificador db.mototaxis ident = none →
      getByIdentificador db.transportes ident = some v →
      findVeiculoByIdentificador db ident =
        some (v, .TransporteMunicipalVeiculo)) ∧
    (getByIdentificador db.taxis ident = none →
      getByIdentificador db.mototaxis ident = none →
      getByIdentificador db.transportes ident = none →
      findVeiculoByIdentificador db ident = none) ∧
    (∀ ct v, identFresh db v.identificador_unico_veiculo →
      v.identificador_unico_veiculo = ident →
      findVeiculoByIdentificador (insertVeiculo db ct v) ident =
        some (v, ct)) := by
  refine ⟨?_, ?_, ?_, ?_, ?_⟩
  · intro v h
    simp [findVeiculoByIdentificador, h]
  · intro v h1 h2
    simp [findVeiculoByIdentificador, h1, h2]
  · intro v h1 h2 h3
    simp [findVeiculoByIdentificador, h1, h2, h3]
  · intro h1 h2 h3
    simp [findVeiculoByIdentificador, h1, h2, h3]
  · intro ct v hfresh hident
    subst hident
    obtain ⟨hf1, hf2, hf3⟩ := hfresh
    cases ct with
    | TaxiVeiculo =>
      have := getByIdentificador_append db.taxis v
        v.identificador_unico_veiculo hf1
      rw [if_pos rfl] at this
      simp [findVeiculoByIdentificador, insertVeiculo, this]
    | MotoTaxiVeiculo =>
      have := getByIdentificador_append db.mototaxis v
        v.identificador_unico_veiculo hf2
      rw [if_pos rfl] at this
      simp [findVeiculoByIdentificador, insertVeiculo, this, hf1]
    | TransporteMunicipalVeiculo =>
      have := getByIdentificador_append db.transportes v
        v.identificador_unico_veiculo hf3
      rw [if_pos rfl] at this
      simp [findVeiculoByIdentificador, insertVeiculo, this, hf1, hf2]

/-- Witness for C5 at a concrete input: inserting the sample taxi into the
empty database and resolving by its identifier returns it, typed as taxi. -/
theorem findVeiculoByIdentificador_order_roundtrip_witness :
    findVeiculoByIdentificador (insertVeiculo emptyDB .TaxiVeiculo
      sampleVeiculo) "AB3XY789" = some (sampleVeiculo, .TaxiVeiculo) :=
  (findVeiculoByIdentificador_order_roundtrip emptyDB "AB3XY789").2.2.2.2
    .TaxiVeiculo sampleVeiculo ⟨rfl, rfl, rfl⟩ rfl

/-! ## C6 — persisted artifact path convention -/

/-- C6: when the banner's vehicle resolves, the derived artifact path is
`banners_identificacao/veiculo/{tipo_dir}/{identificador}/{filename}` with
`tipo_dir` determined by the vehicle's concrete class (`taxi`, `mototaxi`,
`transporte_municipal`, any unrecognized class name mapping to `outro`), and
the filename produced by `gerar_banner` is
`banner_{identificador}_{placa}.png`. -/
theorem upload_banner_to_typed_path (db : VeiculoDB)
    (b : BannerIdentificacao) (v : Veiculo)
    (h : getVeiculo db b = some v) :
    upload_banner_to db b (bannerFilename v) =
      "banners_identificacao/veiculo/" ++
        tipoVeiculoMap b.content_type.className ++ "/" ++
        v.identificador_unico_veiculo ++ "/" ++
        ("banner_" ++ v.identificador_unico_veiculo ++ "_" ++ v.placa ++
          ".png") ∧
    tipoVeiculoMap "TaxiVeiculo" = "taxi" ∧
    tipoVeiculoMap "MotoTaxiVeiculo" = "mototaxi" ∧
    tipoVeiculoMap "TransporteMunicipalVeiculo" = "transporte_municipal" ∧
    (∀ s, s ≠ "TaxiVeiculo" → s ≠ "MotoTaxiVeiculo" →
      s ≠ "TransporteMunicipalVeiculo" → tipoVeiculoMap s = "outro") := by
  refine ⟨?_, by decide, by decide, by decide, ?_⟩
  · unfold upload_banner_to bannerFilename
    rw [h]
  · intro s h1 h2 h3
    unfold tipoVeiculoMap
    rw [if_neg h1, if_neg h2, if_neg h3]

/-- Witness for C6 at a concrete input: the sample taxi's banner path. -/
theorem upload_banner_to_typed_path_witness :
    upload_banner_to sampleDB sampleBannerIdentOnly
      (bannerFilename sampleVeiculo) =
      "banners_identificacao/veiculo/taxi/AB3XY789/banner_AB3XY789_ABC1234.png"
      := by
  have h := (upload_banner_to_typed_path sampleDB sampleBannerIdentOnly
    sampleVeiculo (by decide)).1
  rw [h]
  decide

/-! ## C10 — legacy flat fallback path -/

/-- C10: when the banner's vehicle does not resolve, the derived path falls
back to the flat legacy pattern `banners_identificacao/{filename}`; path
derivation is total, always yielding one of the two patterns. -/
theorem upload_banner_to_fallback (db : VeiculoDB)
    (b : BannerIdentificacao) (filename : String) :
    (getVeiculo db b = none →
      upload_banner_to db b filename =
        "banners_identificacao/" ++ filename) ∧
    (upload_banner_to db b filename =
        "banners_identificacao/" ++ filename ∨
      ∃ v, getVeiculo db b = some v ∧
        upload_banner_to db b filename =
          "banners_identificacao/veiculo/" ++
            tipoVeiculoMap b.content_type.className ++ "/" ++
            v.identificador_unico_veiculo ++ "/" ++ filename) := by
  constructor
  · intro h
    unfold upload_banner_to
    rw [h]
  · cases h : getVeiculo db b with
    | none =>
      left
      unfold upload_banner_to
      rw [h]
    | some v =>
      right
      refine ⟨v, rfl, ?_⟩
      unfold upload_banner_to
      rw [h]

/-- Witness for C10 at a concrete input: with no vehicle resolvable, the path
is the flat legacy one. -/
theorem upload_banner_to_fallback_witness :
    upload_banner_to emptyDB emptyBanner "x.png" =
      "banners_identificacao/x.png" := by
  have h := (upload_banner_to_fallback emptyDB emptyBanner "x.png").1
    (by decide)
  rw [h]
  decide

/-! ## C7 — banner builder failure modes -/

/-- C7: the builder fails fatally with the missing-template
`FileNotFoundError` when the background template is absent; a TrueType font
load failure is non-fatal, the builder falling back to the built-in default
font and still producing the PNG stream; any other compositing error
propagates to the caller, the diagnostic logged alongside it carrying the
vehicle identifier. -/
theorem criar_banner_com_qr_failure_modes (env : BannerEnv)
    (ident placa : String) (uid : Nat) (url : String) :
    (env.templateExists = false →
      ∃ msg, (criar_banner_com_qr env ident placa uid url).1 =
        .error (.fileNotFound msg)) ∧
    (env.templateExists = true → env.compositeError = none →
      (criar_banner_com_qr env ident placa uid url).1 =
        .ok { fontUsed := if env.fontLoads then .truetype else .defaultFont,
              isPng := true, streamAtZero := true }) ∧
    (env.templateExists = true → env.fontLoads = false →
      env.compositeError = none →
      (criar_banner_com_qr env ident placa uid url).1 =
        .ok { fontUsed := .defaultFont, isPng := true,
              streamAtZero := true }) ∧
    (∀ msg, env.templateExists = true → env.compositeError = some msg →
      (criar_banner_com_qr env ident placa uid url).1 =
        .error (.otherError msg) ∧
      (criar_banner_com_qr env ident placa uid url).2 =
        ["Erro ao gerar banner para veículo " ++ ident ++ ": " ++ msg]) := by
  refine ⟨?_, ?_, ?_, ?_⟩
  · intro h
    refine ⟨"Banner base não encontrado em settings.BASE_DIR/utils/images/banner_identificacao.png", ?_⟩
    simp [criar_banner_com_qr, h]
  · intro h1 h2
    simp [criar_banner_com_qr, h1, h2]
  · intro h1 h2 h3
    simp [criar_banner_com_qr, h1, h2, h3]
  · intro msg h1 h2
    constructor
    · simp [criar_banner_com_qr, h1, h2]
    · simp [criar_banner_com_qr, bannerErrorLog, h1, h2]

/-- Witness for C7 at concrete inputs: a missing template is fatal; a font
failure alone still yields the image with the default font; a compositing
error propagates with the identifier in the diagnostic. -/
theorem criar_banner_com_qr_failure_modes_witness :
    (∃ msg, (criar_banner_com_qr ⟨false, true, none⟩ "AB3XY789" "ABC1234"
      7 "u").1 = .error (.fileNotFound msg)) ∧
    (criar_banner_com_qr ⟨true, false, none⟩ "AB3XY789" "ABC1234" 7 "u").1 =
      .ok { fontUsed := .defaultFont, isPng := true, streamAtZero := true } ∧
    (criar_banner_com_qr ⟨true, true, some "boom"⟩ "AB3XY789" "ABC1234" 7
      "u").2 = ["Erro ao gerar banner para veículo AB3XY789: boom"] := by
  refine ⟨?_, ?_, ?_⟩
  · exact (criar_banner_com_qr_failure_modes ⟨false, true, none⟩ "AB3XY789"
      "ABC1234" 7 "u").1 rfl
  · exact (criar_banner_com_qr_failure_modes ⟨true, false, none⟩ "AB3XY789"
      "ABC1234" 7 "u").2.2.1 rfl rfl rfl
  · exact ((criar_banner_com_qr_failure_modes ⟨true, true, some "boom"⟩
      "AB3XY789" "ABC1234" 7 "u").2.2.2 "boom" rfl rfl).2

/-! ## C8 — regeneration cleanup is conditional and non-fatal -/

/-- C8: `regenerar` answers success whatever the cleanup does; the old file
is deleted only when its path differs from the new file's and it still exists
after regeneration (otherwise the disk stays as the generation left it); a
raising `os.remove` is swallowed, leaving the disk as generated; a raising
`os.rmdir` is swallowed, leaving the old file removed; and when the old
file's parent directory is empty after the removal it is itself removed. -/
theorem regenerar_cleanup (fs : FS) (oldFile : Option String)
    (newFile : String) (removeRaises rmdirRaises : Bool) :
    (regenerar fs oldFile newFile removeRaises rmdirRaises).success = true ∧
    (∀ old, oldFile = some old → old ≠ newFile →
      (fs.writeFile newFile).fileExists old = true → removeRaises = false →
      old ∉ (regenerar fs oldFile newFile removeRaises rmdirRaises).fs.files)
      ∧
    (∀ old, oldFile = some old →
      (old = newFile ∨ (fs.writeFile newFile).fileExists old = false) →
      (regenerar fs oldFile newFile removeRaises rmdirRaises).fs =
        fs.writeFile newFile) ∧
    (removeRaises = true →
      (regenerar fs oldFile newFile removeRaises rmdirRaises).fs =
        fs.writeFile newFile) ∧
    (∀ old, oldFile = some old → old ≠ newFile →
      (fs.writeFile newFile).fileExists old = true → removeRaises = false →
      rmdirRaises = true →
      (regenerar fs oldFile newFile removeRaises rmdirRaises).fs =
        (fs.writeFile newFile).removeFile old) ∧
    (∀ old, oldFile = some old → old ≠ newFile →
      (fs.writeFile newFile).fileExists old = true → removeRaises = false →
      rmdirRaises = false →
      ((fs.writeFile newFile).removeFile old).dirExists (dirname old) = true →
      ((fs.writeFile newFile).removeFile old).dirEmpty (dirname old) = true →
      (regenerar fs oldFile newFile removeRaises rmdirRaises).fs =
        (((fs.writeFile newFile).removeFile old).removeDir (dirname old))) :=
    by
  refine ⟨rfl, ?_, ?_, ?_, ?_, ?_⟩
  · intro old h1 h2 h3 h4
    subst h1
    subst h4
    unfold regenerar
    simp only
    rw [if_pos ⟨h3, h2⟩, if_neg (by simp)]
    split
    · split
      · simp [FS.removeFile, List.mem_filter]
      · simp [FS.removeFile, FS.removeDir, List.mem_filter]
    · simp [FS.removeFile, List.mem_filter]
  · intro old h1 h2
    subst h1
    unfold regenerar
    simp only
    rcases h2 with h | h
    · rw [if_neg (by
        intro hc
        exact hc.2 h)]
    · rw [if_neg (by
        intro hc
        rw [hc.1] at h
        cases h)]
  · intro h
    subst h
    cases oldFile with
    | none => rfl
    | some old =>
      unfold regenerar
      simp only
      by_cases hc : (fs.writeFile newFile).fileExists old = true ∧
          old ≠ newFile
      · rw [if_pos hc]
        simp
      · rw [if_neg hc]
  · intro old h1 h2 h3 h4 h5
    subst h1
    subst h4
    subst h5
    unfold regenerar
    simp only
    rw [if_pos ⟨h3, h2⟩, if_neg (by simp)]
    split
    · simp
    · rfl
  · intro old h1 h2 h3 h4 h5 h6 h7
    subst h1
    subst h4
    subst h5
    unfold regenerar
    simp only
    rw [if_pos ⟨h3, h2⟩, if_neg (by simp), if_pos ⟨h6, h7⟩,
      if_neg (by simp)]

/-- Witness for C8 at a concrete input: regenerating over an old file in its
own directory removes the old file and its emptied directory, and answers
success. -/
theorem regenerar_cleanup_witness :
    (regenerar
      { files := ["banners_identificacao/old/a.png"]
        dirs := ["banners_identificacao/old"] }
      (some "banners_identificacao/old/a.png")
      "banners_identificacao/veiculo/taxi/AB3XY789/b.png"
      false false).success = true ∧
    "banners_identificacao/old/a.png" ∉
      (regenerar
        { files := ["banners_identificacao/old/a.png"]
          dirs := ["banners_identificacao/old"] }
        (some "banners_identificacao/old/a.png")
        "banners_identificacao/veiculo/taxi/AB3XY789/b.png"
        false false).fs.files := by
  have h := regenerar_cleanup
    { files := ["banners_identificacao/old/a.png"]
      dirs := ["banners_identificacao/old"] }
    (some "banners_identificacao/old/a.png")
    "banners_identificacao/veiculo/taxi/AB3XY789/b.png"
    false false
  exact ⟨h.1, h.2.1 "banners_identificacao/old/a.png" rfl (by decide)
    (by decide) rfl⟩

/-! ## C9 — deletion cleanup hook -/

/-- C9 counterexample: the cleanup is not exception-free.  The handler's
outer `except` clause names only `(ValueError, FileNotFoundError)`, so a
`PermissionError` raised by `os.remove` on an existing attached file escapes
the pre-delete hook and blocks the record deletion. -/
theorem remove_banner_files_on_delete_raises :
    remove_banner_files_on_delete
      { files := ["banners_identificacao/veiculo/taxi/AB3XY789/banner_AB3XY789_ABC1234.png"]
        dirs := ["banners_identificacao/veiculo/taxi/AB3XY789"] }
      (some "banners_identificacao/veiculo/taxi/AB3XY789/banner_AB3XY789_ABC1234.png")
      false (some .permissionError) false =
      .error .permissionError := rfl

/-- C9 amended: the pre-delete hook removes the attached file when it exists
and then best-effort removes its emptied parent directory; a missing or
unset file never raises; a `ValueError` or `FileNotFoundError` met during
cleanup is caught and logged, as is any `OSError` from the directory
removal — but an `OSError` of another class raised by `os.remove` itself
(such as `PermissionError`) escapes the hook. -/
theorem remove_banner_files_on_delete_amended (fs : FS)
    (arquivo : Option String) (pathRaises : Bool)
    (removeExc : Option OsExc) (rmdirRaises : Bool) :
    (arquivo = none →
      remove_banner_files_on_delete fs arquivo pathRaises removeExc
        rmdirRaises = .ok fs) ∧
    (∀ name, arquivo = some name → pathRaises = false →
      fs.fileExists name = false →
      remove_banner_files_on_delete fs arquivo pathRaises removeExc
        rmdirRaises = .ok fs) ∧
    (∀ name, arquivo = some name → pathRaises = true →
      remove_banner_files_on_delete fs arquivo pathRaises removeExc
        rmdirRaises = .ok fs) ∧
    (∀ name e, arquivo = some name → pathRaises = false →
      fs.fileExists name = true → removeExc = some e →
      (e = .valueError ∨ e = .fileNotFoundError) →
      remove_banner_files_on_delete fs arquivo pathRaises removeExc
        rmdirRaises = .ok fs) ∧
    (∀ name, arquivo = some name → pathRaises = false →
      fs.fileExists name = true → removeExc = none →
      ∃ fsOut, remove_banner_files_on_delete fs arquivo pathRaises removeExc
          rmdirRaises = .ok fsOut ∧
        fsOut.files = (fs.removeFile name).files) ∧
    (∀ name e, arquivo = some name → pathRaises = false →
      fs.fileExists name = true → removeExc = some e →
      (e = .permissionError ∨ e = .otherOsError) →
      remove_banner_files_on_delete fs arquivo pathRaises removeExc
        rmdirRaises = .error e) := by
  refine ⟨?_, ?_, ?_, ?_, ?_, ?_⟩
  · intro h
    subst h
    rfl
  · intro name h1 h2 h3
    subst h1
    subst h2
    unfold remove_banner_files_on_delete
    simp only
    rw [if_neg (by simp), if_neg (by simp [h3])]
  · intro name h1 h2
    subst h1
    subst h2
    unfold remove_banner_files_on_delete
    simp only
    simp
  · intro name e h1 h2 h3 h4 h5
    subst h1
    subst h2
    subst h4
    unfold remove_banner_files_on_delete
    simp only
    rw [if_neg (by simp), if_pos h3]
    rcases h5 with h | h <;> subst h <;> rfl
  · intro name h1 h2 h3 h4
    subst h1
    subst h2
    subst h4
    unfold remove_banner_files_on_delete
    simp only
    rw [if_neg (by simp), if_pos h3]
    split
    · split
      · exact ⟨_, rfl, rfl⟩
      · exact ⟨_, rfl, rfl⟩
    · exact ⟨_, rfl, rfl⟩
  · intro name e h1 h2 h3 h4 h5
    subst h1
    subst h2
    subst h4
    unfold remove_banner_files_on_delete
    simp only
    rw [if_neg (by simp), if_pos h3]
    rcases h5 with h | h <;> subst h <;> rfl

/-- Witness for the amended C9 at concrete inputs: deleting a record whose
file is already missing does not raise, and a raising `os.rmdir` is
swallowed with the file still removed. -/
theorem remove_banner_files_on_delete_amended_witness :
    remove_banner_files_on_delete
      { files := [], dirs := [] } (some "banners_identificacao/x.png")
      false none false = .ok { files := [], dirs := [] } ∧
    ∃ fsOut, remove_banner_files_on_delete
        { files := ["d/x.png"], dirs := ["d"] } (some "d/x.png")
        false none true = .ok fsOut ∧
      fsOut.files = (FS.removeFile { files := ["d/x.png"], dirs := ["d"] }
        "d/x.png").files := by
  constructor
  · exact (remove_banner_files_on_delete_amended { files := [], dirs := [] }
      (some "banners_identificacao/x.png") false none false).2.1
      "banners_identificacao/x.png" rfl rfl (by decide)
  · exact (remove_banner_files_on_delete_amended
      { files := ["d/x.png"], dirs := ["d"] } (some "d/x.png") false none
      true).2.2.2.2.1 "d/x.png" rfl rfl (by decide) rfl

end Sita
